import Mathlib

/-!
# Verification of the cuttle async-service / synchronous-host bridge

Shallow embedding of the bridge pattern implemented (three times) in
`blender_test_addon/__init__.py` and `test_blender_cli.py`:

* `simulated_async_service` — the bridge-test service
  (`__init__.py` lines 92-114 and its standalone copy, lines 351-373):
  `ping ↦ pong`, `stop ↦ stopped` then break, anything else
  `↦ "unknown: " ++ msg`.
* `modalService` — the modal-operator / CLI-test service
  (`__init__.py` lines 223-233, `test_blender_cli.py` lines 94-104):
  a message starting with `"ping"` answers `"pong_" ++ msg.split('_')[1]`
  (the index raising `IndexError` when there is no `'_'`, caught by the
  bare `except: continue`), `"stop"` answers `"stopped"` and breaks, and
  every other message is consumed with no branch taken, hence silently.
* `try_recv_response` — the non-blocking host receive
  (`__init__.py` lines 125-130 / 384-389): `get_nowait`, `None` on empty.
* `modal` — one invocation of `CUTTLE_OT_simulate_modal.modal`
  (`__init__.py` lines 188-211) as a transition on the operator's state.

Queues are embedded as lists (`push` appends on the right, the consumer
pops on the left); a service run is the function from the list of
commands the producers enqueued to the pair
(responses pushed, in order; commands left unconsumed when the loop
breaks).  The service's `get(timeout=1)`/`queue.Empty` retry only makes
the loop wait for commands still to arrive, so on a fixed command list
it is the plain recursion below.
-/

namespace Cuttle

/-- The response `simulated_async_service` computes for one command
(`__init__.py` lines 101-108). -/
def bridgeResp (message : String) : String :=
  if message = "ping" then "pong"
  else if message = "stop" then "stopped"
  else "unknown: " ++ message

/-- `simulated_async_service` (`__init__.py` lines 92-114) run on the list
of enqueued commands: returns the responses pushed (in push order) and the
commands left unconsumed when the loop breaks.  On `"stop"` the loop pushes
`"stopped"` and breaks before the final `put`, so exactly one response. -/
def simulated_async_service : List String → List String × List String
  | [] => ([], [])
  | message :: rest =>
    if message = "ping" then
      let p := simulated_async_service rest
      ("pong" :: p.1, p.2)
    else if message = "stop" then
      (["stopped"], rest)
    else
      let p := simulated_async_service rest
      (("unknown: " ++ message) :: p.1, p.2)

/-- Python's `str.startswith(p)`: the characters of `p` are an initial
segment of the characters of `s`. -/
def pyStartsWith (s p : String) : Bool :=
  p.data.isPrefixOf s.data

/-- Helper for `pySplit`: walk the characters, cutting at each separator. -/
def pySplitAux (sep : Char) : List Char → List Char → List (List Char)
  | [], acc => [acc.reverse]
  | c :: cs, acc =>
    if c = sep then acc.reverse :: pySplitAux sep cs []
    else pySplitAux sep cs (c :: acc)

/-- Python's `str.split(sep)` for a one-character separator: the pieces of
`s` between occurrences of `sep` (`"ping".split('_') = ["ping"]`,
`"ping_1".split('_') = ["ping", "1"]`, `"ping_".split('_') = ["ping", ""]`). -/
def pySplit (s : String) (sep : Char) : List String :=
  (pySplitAux sep s.data []).map List.asString

/-- The modal-operator service body for one command
(`__init__.py` lines 226-231): `some response` when a `put` happens,
`none` when the command is consumed without a response (either the
silently-caught `IndexError` of `msg.split('_')[1]` on a `"ping"`-prefixed
message with no `'_'`, or no branch matching at all). -/
def modalResp? (msg : String) : Option String :=
  if pyStartsWith msg "ping" then
    ((pySplit msg '_')[1]?).map (fun s => "pong_" ++ s)
  else if msg = "stop" then some "stopped"
  else none

/-- The modal-operator variant of the service loop
(`CUTTLE_OT_simulate_modal.execute.service`, `__init__.py` lines 223-233)
run on the list of enqueued commands: responses pushed, and commands left
unconsumed after the `break` on `"stop"`.  The bare `except: continue`
turns the `IndexError` of `msg.split('_')[1]` into consuming the command
with no response. -/
def modalService : List String → List String × List String
  | [] => ([], [])
  | msg :: rest =>
    if pyStartsWith msg "ping" then
      match (pySplit msg '_')[1]? with
      | some suffix =>
        let p := modalService rest
        (("pong_" ++ suffix) :: p.1, p.2)
      | none => modalService rest
    else if msg = "stop" then
      (["stopped"], rest)
    else
      modalService rest

/-- The CLI-test copy of the service (`test_blender_cli.py` lines 94-104):
same per-command logic as `modalService` but bounded to `range(3)`
iterations; an iteration on an empty queue times out (`queue.Empty`) and
`continue`s, consuming one of the three iterations. -/
def cliService : Nat → List String → List String × List String
  | 0, cmds => ([], cmds)
  | f + 1, [] => cliService f []
  | f + 1, msg :: rest =>
    if pyStartsWith msg "ping" then
      match (pySplit msg '_')[1]? with
      | some suffix =>
        let p := cliService f rest
        (("pong_" ++ suffix) :: p.1, p.2)
      | none => cliService f rest
    else if msg = "stop" then
      (["stopped"], rest)
    else
      cliService f rest

/-- `try_recv_response` (`__init__.py` lines 125-130 and 384-389):
`get_nowait()` returning the front response and the remaining queue,
`None` (and the unchanged empty queue) on `queue.Empty`. -/
def try_recv_response : List String → Option String × List String
  | [] => (none, [])
  | r :: rest => (some r, rest)

/-- The commands the service loop consumes out of `cmds`: everything up to
and including the first `"stop"` (the loop breaks there), or all of `cmds`
when no `"stop"` occurs (the loop then just blocks waiting). -/
def upToStop : List String → List String
  | [] => []
  | m :: rest => if m = "stop" then [m] else m :: upToStop rest

/-- The commands left unconsumed in the queue after the loop breaks on the
first `"stop"` (empty when no `"stop"` occurs: everything gets consumed). -/
def afterStop : List String → List String
  | [] => []
  | m :: rest => if m = "stop" then rest else afterStop rest

/-- State of `CUTTLE_OT_simulate_modal` as observed by `modal`:
the `_counter`, the two queues, and the `self.report({"INFO"}, ...)` lines
issued so far (kept to observe what the handler reports). -/
structure ModalState where
  counter : Nat
  message_queue : List String
  response_queue : List String
  reports : List String
deriving DecidableEq, Repr

/-- One invocation of `CUTTLE_OT_simulate_modal.modal`
(`__init__.py` lines 188-211) on an event of type `event_type`:
on `"TIMER"` it pops at most one response (reporting it), increments the
counter, every 10th tick enqueues `"ping_" ++ counter/10` (reporting it),
and once the counter reaches 50 enqueues `"stop"` and returns
`"FINISHED"`; otherwise `"PASS_THROUGH"`.  Non-`"TIMER"` events fall
through to `return {"PASS_THROUGH"}` with nothing touched. -/
def modal (s : ModalState) (event_type : String) : ModalState × String :=
  if event_type = "TIMER" then
    let s1 := match s.response_queue with
      | [] => s
      | r :: rest =>
        { s with response_queue := rest
                 reports := s.reports ++ ["Received: " ++ r] }
    let c := s1.counter + 1
    let s2 := { s1 with counter := c }
    let s3 := if c % 10 = 0 then
        { s2 with
          message_queue := s2.message_queue ++ ["ping_" ++ toString (c / 10)]
          reports := s2.reports ++ ["Sent: ping_" ++ toString (c / 10)] }
      else s2
    if 50 ≤ c then
      ({ s3 with message_queue := s3.message_queue ++ ["stop"] }, "FINISHED")
    else
      (s3, "PASS_THROUGH")
  else
    (s, "PASS_THROUGH")

example : simulated_async_service ["ping", "stop", "later"] =
    (["pong", "stopped"], ["later"]) := by decide

example : modalService ["ping_1", "ping_2", "stop"] =
    (["pong_1", "pong_2", "stopped"], []) := by decide

example : cliService 3 ["ping_1", "ping_2", "stop"] =
    (["pong_1", "pong_2", "stopped"], []) := by decide

example : modalService ["ping"] = ([], []) := by decide

example : modalService ["xyz"] = ([], []) := by decide

example : (modal ⟨49, [], [], []⟩ "TIMER") =
    (⟨50, ["ping_5", "stop"], [], ["Sent: ping_5"]⟩, "FINISHED") := by decide

example : (modal ⟨0, [], ["pong_1", "pong_2"], []⟩ "TIMER").1.response_queue =
    ["pong_2"] := by decide

/-!
### Characterization of the service runs

Both service loops consume exactly the commands up to and including the
first `"stop"` and answer them in order: `simulated_async_service` maps
every consumed command to its `bridgeResp`, the modal variant keeps only
the commands `modalResp?` answers.
-/

theorem sas_eq (cmds : List String) :
    simulated_async_service cmds =
      ((upToStop cmds).map bridgeResp, afterStop cmds) := by
  induction cmds with
  | nil => rfl
  | cons m rest ih =>
    by_cases hp : m = "ping"
    · subst hp
      simp [simulated_async_service, upToStop, afterStop, bridgeResp, ih]
    · by_cases hs : m = "stop"
      · subst hs
        simp [simulated_async_service, upToStop, afterStop, bridgeResp]
      · simp [simulated_async_service, upToStop, afterStop, bridgeResp,
          hp, hs, ih]

theorem not_startsWith_ping_of_eq_stop {m : String} (h : m = "stop") :
    ¬ pyStartsWith m "ping" = true := by
  subst h; decide

theorem modalService_eq (cmds : List String) :
    modalService cmds =
      ((upToStop cmds).filterMap modalResp?, afterStop cmds) := by
  induction cmds with
  | nil => rfl
  | cons m rest ih =>
    by_cases hp : pyStartsWith m "ping" = true
    · have hs : m ≠ "stop" := fun h => not_startsWith_ping_of_eq_stop h hp
      cases hsp : (pySplit m '_')[1]? with
      | none =>
        simp [modalService, upToStop, afterStop, modalResp?, hp, hs, hsp, ih]
      | some suffix =>
        simp [modalService, upToStop, afterStop, modalResp?, hp, hs, hsp, ih]
    · by_cases hs : m = "stop"
      · subst hs
        simp [modalService, upToStop, afterStop, modalResp?, hp]
      · simp [modalService, upToStop, afterStop, modalResp?, hp, hs, ih]

theorem upToStop_append (pre post : List String) (h : "stop" ∉ pre) :
    upToStop (pre ++ "stop" :: post) = pre ++ ["stop"] := by
  induction pre with
  | nil => simp [upToStop]
  | cons m rest ih =>
    rw [List.mem_cons, not_or] at h
    simp [upToStop, Ne.symm h.1, ih h.2]

theorem afterStop_append (pre post : List String) (h : "stop" ∉ pre) :
    afterStop (pre ++ "stop" :: post) = post := by
  induction pre with
  | nil => simp [afterStop]
  | cons m rest ih =>
    rw [List.mem_cons, not_or] at h
    simp [afterStop, Ne.symm h.1, ih h.2]

/-!
### Disambiguation of response strings

No response other than the one for `"stop"` can collide with
`"stopped"`, and only `"ping"` produces `"pong"`.
-/

theorem unknown_ne_short (m t : String) (ht : t.length < 9) :
    "unknown: " ++ m ≠ t := by
  intro h
  have hl := congrArg String.length h
  rw [String.length_append] at hl
  have h9 : "unknown: ".length = 9 := by decide
  omega

theorem bridgeResp_ne_stopped {m : String} (h : m ≠ "stop") :
    bridgeResp m ≠ "stopped" := by
  by_cases hp : m = "ping"
  · rw [bridgeResp, if_pos hp]; decide
  · rw [bridgeResp, if_neg hp, if_neg h]
    exact unknown_ne_short m "stopped" (by decide)

theorem bridgeResp_eq_pong_iff (m : String) :
    bridgeResp m = "pong" ↔ m = "ping" := by
  constructor
  · intro h
    by_cases hp : m = "ping"
    · exact hp
    · by_cases hs : m = "stop"
      · rw [bridgeResp, if_neg hp, if_pos hs] at h
        exact absurd h (by decide)
      · rw [bridgeResp, if_neg hp, if_neg hs] at h
        exact absurd h (unknown_ne_short m "pong" (by decide))
  · intro h
    rw [bridgeResp, if_pos h]

theorem pong_ne_stopped (s : String) : "pong_" ++ s ≠ "stopped" := by
  intro h
  have hd := congrArg String.data h
  rw [String.data_append] at hd
  have h1 : "pong_".data = ['p', 'o', 'n', 'g', '_'] := rfl
  have h2 : "stopped".data = ['s', 't', 'o', 'p', 'p', 'e', 'd'] := rfl
  rw [h1, h2] at hd
  simp only [List.cons_append, List.cons.injEq] at hd
  exact absurd hd.1 (by decide)

theorem modalResp?_eq_stopped_iff (m : String) :
    modalResp? m = some "stopped" ↔ m = "stop" := by
  constructor
  · intro h
    by_cases hp : pyStartsWith m "ping" = true
    · rw [modalResp?, if_pos hp] at h
      cases hsp : (pySplit m '_')[1]? with
      | none => rw [hsp] at h; exact absurd h (by decide)
      | some s =>
        rw [hsp] at h
        rw [Option.map] at h
        simp only [Option.some.injEq] at h
        exact absurd h (pong_ne_stopped s)
    · by_cases hs : m = "stop"
      · exact hs
      · rw [modalResp?, if_neg hp, if_neg hs] at h
        exact absurd h (by simp)
  · intro h
    subst h; decide

theorem count_map_bridgeResp_pong (l : List String) :
    (l.map bridgeResp).count "pong" = l.count "ping" := by
  induction l with
  | nil => rfl
  | cons m rest ih =>
    by_cases hp : m = "ping"
    · subst hp
      simp [List.count_cons, bridgeResp, ih]
    · have hb : bridgeResp m ≠ "pong" :=
        fun hh => hp ((bridgeResp_eq_pong_iff m).1 hh)
      simp [List.count_cons, beq_iff_eq, ih, hb, hp]

/-!
### The claims
-/

/-- **C1** (P3, graceful stop): in both service loops, a run whose command
queue holds `pre ++ "stop" :: post` with no earlier `"stop"` pushes
`"stopped"` exactly once (no response of any other command collides with
it), pushes nothing after it, terminates, and leaves the commands enqueued
after `"stop"` unconsumed. -/
theorem C1_graceful_stop (pre post : List String) (h : "stop" ∉ pre) :
    (simulated_async_service (pre ++ "stop" :: post)).1
        = pre.map bridgeResp ++ ["stopped"]
    ∧ "stopped" ∉ pre.map bridgeResp
    ∧ (simulated_async_service (pre ++ "stop" :: post)).2 = post
    ∧ (modalService (pre ++ "stop" :: post)).1
        = pre.filterMap modalResp? ++ ["stopped"]
    ∧ "stopped" ∉ pre.filterMap modalResp?
    ∧ (modalService (pre ++ "stop" :: post)).2 = post := by
  have hup := upToStop_append pre post h
  have haf := afterStop_append pre post h
  refine ⟨?_, ?_, ?_, ?_, ?_, ?_⟩
  · rw [sas_eq, hup, List.map_append]
    have hbs : bridgeResp "stop" = "stopped" := by decide
    simp [hbs]
  · intro hmem
    rcases List.mem_map.1 hmem with ⟨a, ha, hEq⟩
    exact bridgeResp_ne_stopped (fun hh => h (hh ▸ ha)) hEq
  · rw [sas_eq]; exact haf
  · rw [modalService_eq, hup, List.filterMap_append]
    have hms : modalResp? "stop" = some "stopped" := by decide
    simp [hms]
  · intro hmem
    rcases List.mem_filterMap.1 hmem with ⟨a, ha, hEq⟩
    have ha' : a = "stop" := (modalResp?_eq_stopped_iff a).1 hEq
    exact h (ha' ▸ ha)
  · rw [modalService_eq]; exact haf

theorem C1_graceful_stop_witness :
    ("stop" ∉ (["ping"] : List String))
    ∧ ((simulated_async_service (["ping"] ++ "stop" :: ["late"])).1
          = ["ping"].map bridgeResp ++ ["stopped"]
      ∧ "stopped" ∉ (["ping"] : List String).map bridgeResp
      ∧ (simulated_async_service (["ping"] ++ "stop" :: ["late"])).2 = ["late"]
      ∧ (modalService (["ping"] ++ "stop" :: ["late"])).1
          = ["ping"].filterMap modalResp? ++ ["stopped"]
      ∧ "stopped" ∉ (["ping"] : List String).filterMap modalResp?
      ∧ (modalService (["ping"] ++ "stop" :: ["late"])).2 = ["late"]) :=
  ⟨by decide, C1_graceful_stop ["ping"] ["late"] (by decide)⟩

/-- **C2** (P2, ping/pong): sending `"ping"` to the bridge-test service
yields exactly one `"pong"`, which `try_recv_response` then hands over;
in general a run answers `"pong"` exactly once per `"ping"` consumed. -/
theorem C2_ping_pong :
    simulated_async_service ["ping"] = (["pong"], [])
    ∧ try_recv_response ["pong"] = (some "pong", [])
    ∧ ∀ cmds : List String,
        ((simulated_async_service cmds).1).count "pong"
          = (upToStop cmds).count "ping" := by
  refine ⟨by decide, by decide, fun cmds => ?_⟩
  rw [sas_eq]
  exact count_map_bridgeResp_pong (upToStop cmds)

/-- **C3, counterexample**: the modal-operator variant of the service
(`__init__.py` lines 223-233) consumes the unrecognized command `"xyz"`
(nothing is left in the queue) yet pushes no response at all — refuting
"it never consumes such a command without answering" for that service. -/
theorem C3_unknown_counterexample : modalService ["xyz"] = ([], []) := by
  decide

/-- **C3, amended**: the bridge-test service answers every unrecognized
command it consumes with `"unknown: " ++ payload`; the modal-operator
service instead consumes a command that is neither `"ping"`-prefixed nor
`"stop"` silently, pushing no response. -/
theorem C3_unknown_amended :
    (∀ cmds msg, msg ∈ upToStop cmds → msg ≠ "ping" → msg ≠ "stop" →
        ("unknown: " ++ msg) ∈ (simulated_async_service cmds).1)
    ∧ ∀ msg, pyStartsWith msg "ping" = false → msg ≠ "stop" →
        modalService [msg] = ([], []) := by
  constructor
  · intro cmds msg hmem hp hs
    rw [sas_eq]
    refine List.mem_map.2 ⟨msg, hmem, ?_⟩
    rw [bridgeResp, if_neg hp, if_neg hs]
  · intro msg hp hs
    simp [modalService, hp, hs]

theorem C3_unknown_amended_witness :
    ("unknown: " ++ "xyz") ∈ (simulated_async_service ["xyz"]).1
    ∧ modalService ["radius"] = ([], []) :=
  ⟨C3_unknown_amended.1 ["xyz"] "xyz" (by decide) (by decide) (by decide),
   C3_unknown_amended.2 "radius" (by decide) (by decide)⟩

/-- **C4** (P1, order preservation): a single producer's command sequence
`[A, B]` is answered in order `[resp A, resp B]` by the bridge-test
service; the modal variant's responses are the per-command responses of
the consumed commands in consumption order; and the CLI test's concrete
run `["ping_1", "ping_2", "stop"]` yields
`["pong_1", "pong_2", "stopped"]`. -/
theorem C4_order_preservation :
    (∀ A B : String, A ≠ "stop" →
        (simulated_async_service [A, B]).1 = [bridgeResp A, bridgeResp B])
    ∧ (∀ cmds : List String,
        (modalService cmds).1 = (upToStop cmds).filterMap modalResp?)
    ∧ (cliService 3 ["ping_1", "ping_2", "stop"]).1
        = ["pong_1", "pong_2", "stopped"] := by
  refine ⟨fun A B hA => ?_, fun cmds => by rw [modalService_eq], by decide⟩
  rw [sas_eq]
  have h1 : upToStop [A, B] = [A, B] := by
    by_cases hB : B = "stop" <;> simp [upToStop, hA, hB]
  rw [h1]
  rfl

theorem C4_order_preservation_witness :
    ("ping" : String) ≠ "stop"
    ∧ (simulated_async_service ["ping", "xyz"]).1
        = [bridgeResp "ping", bridgeResp "xyz"] :=
  ⟨by decide, C4_order_preservation.1 "ping" "xyz" (by decide)⟩

/-- **C5, counterexample**: handling the command `"ping"` in the
modal-operator service raises `IndexError` in `msg.split('_')[1]`; the
run `["ping", "ping_1"]` shows the full response stream is `["pong_1"]` —
the loop continued, but no `Error` (nor any other) response was pushed
for the faulting command, refuting "the error is reported to the host as
an Error response pushed onto the response channel". -/
theorem C5_error_counterexample :
    modalService ["ping", "ping_1"] = (["pong_1"], []) := by decide

/-- **C5, amended**: an internal error while handling a command (the
`IndexError` of `msg.split('_')[1]` on a `"ping"`-prefixed command with no
`'_'` suffix) is swallowed by the bare `except: continue`: the command is
consumed, the loop goes on with the remaining commands, and no response
of any kind is pushed for the faulting command — the fault stays
unreported. -/
theorem C5_error_amended (msg : String) (rest : List String)
    (hp : pyStartsWith msg "ping" = true)
    (he : (pySplit msg '_')[1]? = none) :
    modalService (msg :: rest) = modalService rest := by
  simp [modalService, hp, he]

theorem C5_error_amended_witness :
    (pyStartsWith "ping" "ping" = true ∧ (pySplit "ping" '_')[1]? = none)
    ∧ modalService ["ping", "ping_1"] = modalService ["ping_1"] :=
  ⟨⟨by decide, by decide⟩,
   C5_error_amended "ping" ["ping_1"] (by decide) (by decide)⟩

/-- **C9**: in the modal-operator (and CLI-test) service, the command
exactly `"ping"` takes the `startswith("ping")` branch, its suffix lookup
`split('_')[1]` fails (the split has a single piece), the exception is
caught, and the loop continues: the command is consumed with no response
pushed. -/
theorem C9_bare_ping_dropped (rest : List String) :
    pyStartsWith "ping" "ping" = true
    ∧ (pySplit "ping" '_')[1]? = none
    ∧ modalService ("ping" :: rest) = modalService rest
    ∧ ∀ f : Nat, cliService (f + 1) ("ping" :: rest) = cliService f rest := by
  have h1 : pyStartsWith "ping" "ping" = true := by decide
  have h2 : (pySplit "ping" '_')[1]? = none := by decide
  exact ⟨h1, h2, by simp [modalService, h1, h2],
    fun f => by simp [cliService, h1, h2]⟩

/-- **C6, counterexample**: one `"TIMER"` tick on a state whose response
queue holds two responses leaves one of them queued — the handler
(`__init__.py` lines 190-196) calls `get_nowait` at most once per tick,
so it does not drain the queue until empty as claimed. -/
theorem C6_drain_counterexample :
    ((modal ⟨0, [], ["pong_1", "pong_2"], []⟩ "TIMER").1).response_queue
        = ["pong_2"]
    ∧ ((modal ⟨0, [], ["pong_1", "pong_2"], []⟩ "TIMER").1).response_queue
        ≠ [] := by decide

/-- **C6, amended**: on every `"TIMER"` tick, before applying the
tick-based send policy, the handler dequeues at most one response — the
head of the response queue when it is nonempty, nothing when it is empty;
the remaining responses stay queued for later ticks. -/
theorem C6_drain_amended (s : ModalState) :
    ((modal s "TIMER").1).response_queue = s.response_queue.tail := by
  cases hq : s.response_queue <;>
    simp [modal, hq] <;> split_ifs <;> rfl

/-- **C7, counterexample**: from the state with counter 49, empty queues
and no reports — a run in which `"stop"` was never sent before and
`"stopped"` was never received — a single `"TIMER"` tick already returns
`"FINISHED"`, enqueuing `"stop"` (after `"ping_5"`) on that same tick:
the handler neither observes a `"stopped"` response nor waits any grace
ticks after sending `"stop"`, refuting the claimed
`Finishing → Finished` condition. -/
theorem C7_finish_counterexample :
    (modal ⟨49, [], [], []⟩ "TIMER").2 = "FINISHED"
    ∧ (modal ⟨49, [], [], []⟩ "TIMER").1.message_queue = ["ping_5", "stop"]
    ∧ (modal ⟨49, [], [], []⟩ "TIMER").1.reports = ["Sent: ping_5"]
    ∧ (modal ⟨49, [], [], []⟩ "TIMER").1.response_queue = [] := by decide

/-- **C7, amended**: the handler returns `"FINISHED"` on a `"TIMER"` tick
exactly when the incremented counter has reached 50, whatever the
response queue holds; on such a tick it enqueues `"stop"` and finishes
immediately, in the same invocation, without observing a `"stopped"`
response and without any grace period.  (That `"FINISHED"` ends the modal
ticks is the host's contract for the returned value.) -/
theorem C7_finish_amended (s : ModalState) :
    ((modal s "TIMER").2 = "FINISHED" ↔ 50 ≤ s.counter + 1)
    ∧ (50 ≤ s.counter + 1 →
        "stop" ∈ ((modal s "TIMER").1).message_queue) := by
  cases hq : s.response_queue <;>
    by_cases h50 : 50 ≤ s.counter + 1 <;>
      by_cases h10 : (s.counter + 1) % 10 = 0 <;>
        simp [modal, hq, h50, h10]

theorem C7_finish_amended_witness :
    (modal ⟨49, [], [], []⟩ "TIMER").2 = "FINISHED"
    ∧ "stop" ∈ ((modal ⟨49, [], [], []⟩ "TIMER").1).message_queue :=
  ⟨(C7_finish_amended ⟨49, [], [], []⟩).1.mpr (by decide),
   (C7_finish_amended ⟨49, [], [], []⟩).2 (by decide)⟩

/-- **C8** (P4, non-blocking host): `try_recv_response` returns the front
response and consumes it when one is queued, and the `None` signal — with
the queue unchanged — when the queue is empty; it never yields more than
one message.  (The sub-millisecond bound itself is a real-time property
outside the embedding; what is provable is the functional contract:
one message or `None`, with `None` exactly on the empty queue.) -/
theorem C8_try_recv_nonblocking (q : List String) :
    (try_recv_response q).1 = q.head?
    ∧ (try_recv_response q).2 = q.tail := by
  cases q <;> simp [try_recv_response]

/-- **C10**: on any event whose type is not `"TIMER"`, the modal handler
returns `{"PASS_THROUGH"}` with the whole operator state — counter, both
queues, and reports — unchanged. -/
theorem C10_non_timer_noop (s : ModalState) (event_type : String)
    (h : event_type ≠ "TIMER") :
    modal s event_type = (s, "PASS_THROUGH") := by
  simp [modal, h]

theorem C10_non_timer_noop_witness :
    ("MOUSEMOVE" : String) ≠ "TIMER"
    ∧ modal ⟨7, ["ping_1"], ["pong_1"], []⟩ "MOUSEMOVE"
        = (⟨7, ["ping_1"], ["pong_1"], []⟩, "PASS_THROUGH") :=
  ⟨by decide, C10_non_timer_noop _ "MOUSEMOVE" (by decide)⟩

end Cuttle
